import Mathlib

/-!
Verification of the census/BEA data-preparation pipeline of this repository.

The definitions below are shallow embeddings of the Python source:

* tabular data is modelled by `DF` (an ordered list of column names plus rows
  of cells); a cell (`Val`) is a missing value, an integer, or a string,
  mirroring `NaN` / numeric / object cells of a pandas frame;
* `pd.to_numeric(..., errors="coerce").astype("Int64").astype(str).str.zfill(w)`
  is `cleanKeyCell w`: an unparseable cell coerces to the pandas missing-value
  marker, whose string form is `"<NA>"`, and an integer cell is printed in
  decimal and zero-padded. Numeric cells are modelled as integers: the key and
  count columns these cleaners touch hold integers (a non-integral float would
  make the `astype("Int64")` cast raise and the enclosing try/except return
  `None`; that branch is outside this model);
* fallible cleaners return `Option DF`, and cleaners that assign columns on the
  frame the caller passed in are additionally given a `_call` form returning
  `(caller's frame after the call, result)`, making the in-place pandas column
  assignment explicit.
-/

/-- Decimal digit character: `digitChar d` is the character for `d % 10`. -/
def digitChar (d : Nat) : Char := Char.ofNat (48 + d % 10)

/-- Decimal digits of a natural number, with explicit fuel (the fuel used by
`natStr` always suffices, and the lemmas below do not depend on that). -/
def natDigitsAux : Nat → Nat → List Char
  | 0, _ => []
  | fuel + 1, n =>
    if n < 10 then [digitChar n]
    else natDigitsAux fuel (n / 10) ++ [digitChar (n % 10)]

/-- Decimal string of a natural number (models `astype(str)` of an integer). -/
def natStr (n : Nat) : String := String.mk (natDigitsAux (n + 1) n)

/-- Decimal string of an integer (models `astype(str)` of an `Int64` cell). -/
def intStr (i : Int) : String :=
  if i < 0 then String.mk ('-' :: natDigitsAux (i.natAbs + 1) i.natAbs)
  else natStr i.natAbs

/-- Zero pad a character list on the left to width `w` (Python `str.zfill`). -/
def zfillChars (w : Nat) (l : List Char) : List Char :=
  List.replicate (w - l.length) '0' ++ l

/-- Zero pad a string on the left to width `w` (pandas `.str.zfill(w)`). -/
def zfill (w : Nat) (s : String) : String := String.mk (zfillChars w s.data)

/-- Numeric value of a decimal digit character. -/
def digitVal (c : Char) : Option Nat :=
  if '0' ≤ c ∧ c ≤ '9' then some (c.toNat - 48) else none

/-- Parse a list of decimal digit characters as a natural number. -/
def parseNatChars (l : List Char) : Option Nat :=
  if l.isEmpty then none
  else
    l.foldl
      (fun acc c =>
        match acc, digitVal c with
        | some a, some d => some (10 * a + d)
        | _, _ => none)
      (some 0)

/-- Parse an optionally-signed integer literal (the integer fragment of
`pd.to_numeric`; anything else coerces to missing). -/
def strToIntQ (s : String) : Option Int :=
  match s.data with
  | '-' :: rest => (parseNatChars rest).map (fun n => -(n : Int))
  | l => (parseNatChars l).map (fun n => (n : Int))

/-- A cell of a pandas frame: missing, integer-valued numeric, or string. -/
inductive Val where
  | na : Val
  | num : ℤ → Val
  | str : String → Val
deriving DecidableEq

/-- A pandas dataframe: ordered column names and rows of cells. -/
structure DF where
  cols : List String
  rows : List (List Val)
deriving DecidableEq

/-- Index of a column name, if present. -/
def DF.colIdx (df : DF) (c : String) : Option Nat :=
  df.cols.findIdx? (fun x => x == c)

/-- Cell of a row at an optional column index (missing column reads as NA). -/
def getCell (row : List Val) (i : Option Nat) : Val :=
  match i with
  | some i => row.getD i .na
  | none => .na

/-- `pd.to_numeric(errors="coerce").astype("Int64").astype(str).str.zfill(w)`
on one cell: a value that fails to parse coerces to the pandas missing
marker, whose string form is `"<NA>"`, then gets zero-padded like any other
value. -/
def cleanKeyCell (w : Nat) (v : Val) : Val :=
  match v with
  | .na => .str (zfill w "<NA>")
  | .num i => .str (zfill w (intStr i))
  | .str s =>
    match strToIntQ s with
    | some i => .str (zfill w (intStr i))
    | none => .str (zfill w "<NA>")

/-- Overwrite (or append) column `c`, computing each new cell from its row
(pandas column assignment). -/
def DF.setCol (df : DF) (c : String) (f : List Val → Val) : DF :=
  match df.colIdx c with
  | some i => ⟨df.cols, df.rows.map (fun r => r.set i (f r))⟩
  | none => ⟨df.cols ++ [c], df.rows.map (fun r => r ++ [f r])⟩

/-- Apply `cleanKeyCell w` to column `src`, writing the result to column `c`. -/
def DF.cleanKeyColInto (df : DF) (c src : String) (w : Nat) : DF :=
  df.setCol c (fun r => cleanKeyCell w (getCell r (df.colIdx src)))

/-- Apply `cleanKeyCell w` to column `c` in place. -/
def DF.cleanKeyCol (df : DF) (c : String) (w : Nat) : DF :=
  df.cleanKeyColInto c c w

/-- Numeric sum of a list of cells; missing and non-numeric cells contribute 0
(pandas `.sum` skips missing values; the summed columns are numeric). -/
def sumNums (vs : List Val) : ℤ :=
  vs.foldr (fun v acc => (match v with | .num q => q | _ => 0) + acc) 0

/-- Select a subset of columns (`df[[...]]`); raises (`none`) when absent. -/
def DF.select (df : DF) (cs : List String) : Option DF :=
  if ∀ c ∈ cs, c ∈ df.cols then
    some ⟨cs, df.rows.map (fun r => cs.map (fun c => getCell r (df.colIdx c)))⟩
  else none

/-- Drop columns by name (`df.drop(columns=...)`); raises when absent. -/
def DF.dropCols (df : DF) (cs : List String) : Option DF :=
  if ∀ c ∈ cs, c ∈ df.cols then
    some ⟨df.cols.filter (fun c => ¬ cs.contains c),
      df.rows.map (fun r =>
        ((df.cols.zip r).filter (fun p => ¬ cs.contains p.1)).map (fun p => p.2))⟩
  else none

/-- Inner join (`pd.merge(how="inner")`) on string-typed key columns; raises
(`none`) when either key column is absent. -/
def innerJoinOn (l r : DF) (lk rk : String) : Option DF :=
  if lk ∈ l.cols ∧ rk ∈ r.cols then
    some ⟨l.cols ++ r.cols,
      l.rows.flatMap (fun lr =>
        (r.rows.filter
          (fun rr => getCell rr (r.colIdx rk) == getCell lr (l.colIdx lk))).map
          (fun rr => lr ++ rr))⟩
  else none

/-- `clean_bfi` (src/gt_utilities/clean_census_bea_data.py:22-43) with the
caller's frame made explicit: `bfi_df["metro13"] = ...` assigns on the frame
the caller passed in, so on success the caller's frame equals the returned
frame; on a missing column or a raised cast the assignment does not land. -/
def clean_bfi_call (df : DF) : DF × Option DF :=
  if "metro13" ∈ df.cols then
    ((df.cleanKeyCol "metro13" 5), some (df.cleanKeyCol "metro13" 5))
  else (df, none)

/-- `clean_bfi`: result component of `clean_bfi_call`. -/
def clean_bfi (df : DF) : Option DF := (clean_bfi_call df).2

/-- `clean_pop_1980` (src/gt_utilities/clean_census_bea_data.py:46-85):
filter to `Year of Estimate == 1980` (on a copy), append a
`Total Population` column summing the columns from index 3 on, and zero-pad
the `FIPS State and County Codes` column to width 5. -/
def clean_pop_1980 (df : DF) : Option DF :=
  if "Year of Estimate" ∈ df.cols ∧ "FIPS State and County Codes" ∈ df.cols then
    let filtered : DF :=
      ⟨df.cols, df.rows.filter
        (fun r => getCell r (df.colIdx "Year of Estimate") == .num 1980)⟩
    let colsToSum := filtered.cols.drop 3
    let withTotal : DF :=
      ⟨filtered.cols ++ ["Total Population"],
        filtered.rows.map (fun r =>
          r ++ [.num (sumNums (colsToSum.map (fun c => getCell r (filtered.colIdx c))))])⟩
    some (withTotal.cleanKeyCol "FIPS State and County Codes" 5)
  else none

/-- `clean_pop_1980` operates on a `.copy()`, so the caller's frame is
unchanged. -/
def clean_pop_1980_call (df : DF) : DF × Option DF := (df, clean_pop_1980 df)

/-- `clean_cbsa_county_crosswalk` (src/gt_utilities/clean_census_bea_data.py:
88-117) with the caller's frame explicit: the `fips` column is the
`fipscounty` key zero-padded to width 4 (the literal `str.zfill(4)` of the
source), the `cbsacode` column is the `cbsa` key zero-padded to width 5; both
columns are assigned on the caller's frame. -/
def clean_cbsa_county_crosswalk_call (df : DF) : DF × Option DF :=
  if "fipst" ∈ df.cols ∧ "fipscounty" ∈ df.cols ∧ "cbsa" ∈ df.cols then
    (((df.cleanKeyColInto "fips" "fipscounty" 4).cleanKeyColInto "cbsacode" "cbsa" 5),
     some ((df.cleanKeyColInto "fips" "fipscounty" 4).cleanKeyColInto "cbsacode" "cbsa" 5))
  else (df, none)

/-- `clean_cbsa_county_crosswalk`: result component of the `_call` form. -/
def clean_cbsa_county_crosswalk (df : DF) : Option DF :=
  (clean_cbsa_county_crosswalk_call df).2

/-- `clean_pop_2022` (src/gt_utilities/clean_census_bea_data.py:254-275) with
the caller's frame explicit: the `CBSA` column is zero-padded to width 5 in
place on the caller's frame. -/
def clean_pop_2022_call (df : DF) : DF × Option DF :=
  if "CBSA" ∈ df.cols then
    ((df.cleanKeyCol "CBSA" 5), some (df.cleanKeyCol "CBSA" 5))
  else (df, none)

/-- `clean_pop_2022`: result component of `clean_pop_2022_call`. -/
def clean_pop_2022 (df : DF) : Option DF := (clean_pop_2022_call df).2

/-- Base columns `organize_pop_2022_minimal` requires. -/
def required2022Base : List String :=
  ["AGEGRP", "metro13", "metro_title", "TOT_POP", "TOT_MALE", "TOT_FEMALE",
   "WAC_MALE", "WAC_FEMALE", "BAC_MALE", "BAC_FEMALE"]

/-- Male "other races" source columns of `organize_pop_2022_minimal`. -/
def required2022OtherM : List String := ["IAC_MALE", "AAC_MALE", "NAC_MALE", "H_MALE"]

/-- Female "other races" source columns of `organize_pop_2022_minimal`. -/
def required2022OtherF : List String :=
  ["IAC_FEMALE", "AAC_FEMALE", "NAC_FEMALE", "H_FEMALE"]

/-- `organize_pop_2022_minimal` (src/gt_utilities/clean_census_bea_data.py:
278-355): require the 18 columns, keep rows with `AGEGRP == 0`, select the
base columns and append `OTHER_MALE` / `OTHER_FEMALE` as sums of the four
remaining race columns of the same rows. -/
def organize_pop_2022_minimal (df : DF) : Option DF :=
  if ∀ c ∈ required2022Base ++ required2022OtherM ++ required2022OtherF, c ∈ df.cols then
    let filtered := df.rows.filter (fun r => getCell r (df.colIdx "AGEGRP") == .num 0)
    let selCols := ["metro13", "metro_title", "TOT_POP", "TOT_MALE", "TOT_FEMALE",
      "WAC_MALE", "WAC_FEMALE", "BAC_MALE", "BAC_FEMALE"]
    some ⟨selCols ++ ["OTHER_MALE", "OTHER_FEMALE"],
      filtered.map (fun r =>
        selCols.map (fun c => getCell r (df.colIdx c))
          ++ [.num (sumNums (required2022OtherM.map (fun c => getCell r (df.colIdx c)))),
              .num (sumNums (required2022OtherF.map (fun c => getCell r (df.colIdx c))))])⟩
  else none

/-- `merge_pop_1980_with_cbsa` (src/gt_utilities/merge_census_bea_data.py:
25-51): inner join of the cleaned 1980 population frame with the crosswalk's
`["cbsacode", "fips", "cbsaname"]` columns on
`FIPS State and County Codes = fips`, then drop the left key column. -/
def merge_pop_1980_with_cbsa (pop cw : DF) : Option DF := do
  let cwSel ← cw.select ["cbsacode", "fips", "cbsaname"]
  let joined ← innerJoinOn pop cwSel "FIPS State and County Codes" "fips"
  joined.dropCols ["FIPS State and County Codes"]

/-- `merge_pop_1980_with_bfi` (src/gt_utilities/merge_census_bea_data.py:
54-77): inner join with the BFI frame's `["metro13", "metro_title"]` on
`cbsacode = metro13`, then drop `cbsacode` and `cbsaname`. -/
def merge_pop_1980_with_bfi (msa bfi : DF) : Option DF := do
  let bfiSel ← bfi.select ["metro13", "metro_title"]
  let joined ← innerJoinOn msa bfiSel "cbsacode" "metro13"
  joined.dropCols ["cbsacode", "cbsaname"]

/-- Round to the nearest integer, ties to even (numpy / pandas `.round`). -/
def roundHalfEven (x : ℚ) : ℤ :=
  if x - (⌊x⌋ : ℚ) < 1 / 2 then ⌊x⌋
  else if 1 / 2 < x - (⌊x⌋ : ℚ) then ⌊x⌋ + 1
  else if ⌊x⌋ % 2 = 0 then ⌊x⌋ else ⌊x⌋ + 1

/-- `.round(1)` of pandas on an exact rational. -/
def round1 (x : ℚ) : ℚ := (roundHalfEven (10 * x) : ℚ) / 10

/-- `.round(2)` of pandas on an exact rational. -/
def round2 (x : ℚ) : ℚ := (roundHalfEven (100 * x) : ℚ) / 100

/-- The percent-change loop of `download_bea_gdp_percent_change`
(src/scripts/download_bea_gdp.py:95-102, identical in src/dataprep.py:299-308):
given the GDP levels of one area in year order, each output entry compares two
consecutive entries of `level_data`, the untouched copy of the original
levels, and the earliest year's column is dropped (the output starts at the
second year). -/
def pct_change_series : List ℚ → List ℚ
  | prev :: curr :: rest =>
    round1 ((curr - prev) / prev * 100) :: pct_change_series (curr :: rest)
  | _ => []

/-- One row of the base BFI employment frame (after `clean_bfi`). -/
structure BfiRow where
  metro13 : String
  metro_title : String
deriving DecidableEq

/-- One row of the final 1980 population frame (`final_pop_1980`). -/
structure Pop1980FinalRow where
  year : Int
  metro13 : String
  AGEGRP : Int
  TOT_POP : ℚ
deriving DecidableEq

/-- One row of the minimal 2022 population frame (`min_df_2022`). -/
structure Pop2022MinRow where
  metro13 : String
  TOT_POP : ℚ
deriving DecidableEq

/-- One row of the combined population frame `pop_df` built inside
`build_bfi_pop_labor`. -/
structure PopRow where
  metro13 : String
  year : Int
  TOT_POP : ℚ
deriving DecidableEq

/-- One row of the merged industry frame (`merged_all_ind`), restricted to the
columns `build_bfi_pop_labor` selects. -/
structure IndRow where
  metro13 : String
  year : Int
  estabs : ℚ
  empl : ℚ
  wages : ℚ
  wkly : ℚ
deriving DecidableEq

/-- One row of the master merged frame (`new_bfi_df`); population and industry
columns are `Option` because the left joins leave them null on no match. -/
structure MergedRow where
  metro13 : String
  metro_title : String
  year : Int
  TOT_POP : Option ℚ
  estabs : Option ℚ
  empl : Option ℚ
  wages : Option ℚ
  wkly : Option ℚ
deriving DecidableEq

/-- Step 1 of `build_bfi_pop_labor`
(src/gt_utilities/build_census_bea_resources.py:192-200): duplicate the BFI
frame with `year = 1980` and `year = 2022` and stack. -/
def bfi_years (bfi : List BfiRow) : List (BfiRow × Int) :=
  bfi.map (fun b => (b, 1980)) ++ bfi.map (fun b => (b, 2022))

/-- Step 2 of `build_bfi_pop_labor` (lines 205-223): keep `AGEGRP == 0` rows
of the 1980 frame, give the 2022 frame `year = 2022`, and concatenate. -/
def pop_combined (p80 : List Pop1980FinalRow) (p22 : List Pop2022MinRow) :
    List PopRow :=
  (p80.filter (fun r => r.AGEGRP == 0)).map (fun r => ⟨r.metro13, r.year, r.TOT_POP⟩)
    ++ p22.map (fun r => ⟨r.metro13, 2022, r.TOT_POP⟩)

/-- Population rows matching one base row's `(metro13, year)` key. -/
def popMatches (pop : List PopRow) (b : BfiRow) (y : Int) : List PopRow :=
  pop.filter (fun p => p.metro13 == b.metro13 && p.year == y)

/-- The population left join of `build_bfi_pop_labor` (lines 230-236):
`bfi_yrs.merge(pop_df, on=["metro13", "year"], how="left")`. -/
def merge_pop (base : List (BfiRow × Int)) (pop : List PopRow) :
    List (BfiRow × Int × Option ℚ) :=
  base.flatMap (fun x =>
    match popMatches pop x.1 x.2 with
    | [] => [(x.1, x.2, none)]
    | ms => ms.map (fun p => (x.1, x.2, some p.TOT_POP)))

/-- Industry rows matching one base row's `(metro13, year)` key. -/
def indMatches (ind : List IndRow) (b : BfiRow) (y : Int) : List IndRow :=
  ind.filter (fun i => i.metro13 == b.metro13 && i.year == y)

/-- The industry left join of `build_bfi_pop_labor` (lines 241-256). -/
def merge_ind (withPop : List (BfiRow × Int × Option ℚ)) (ind : List IndRow) :
    List MergedRow :=
  withPop.flatMap (fun x =>
    match indMatches ind x.1 x.2.1 with
    | [] => [⟨x.1.metro13, x.1.metro_title, x.2.1, x.2.2, none, none, none, none⟩]
    | ms => ms.map (fun i =>
        ⟨x.1.metro13, x.1.metro_title, x.2.1, x.2.2,
          some i.estabs, some i.empl, some i.wages, some i.wkly⟩))

/-- `build_bfi_pop_labor`
(src/gt_utilities/build_census_bea_resources.py:171-275), restricted to the
key columns and `TOT_POP` / industry metrics: duplicate the base frame for
both years, then left-join population and industry on `(metro13, year)`. -/
def build_bfi_pop_labor (bfi : List BfiRow) (p80 : List Pop1980FinalRow)
    (p22 : List Pop2022MinRow) (ind : List IndRow) : List MergedRow :=
  merge_ind (merge_pop (bfi_years bfi) (pop_combined p80 p22)) ind

/-- One proportion row of `make_msa_tables`
(src/gt_utilities/build_census_bea_resources.py:57-81): the three race
components of one sex divided by that sex's total, with the denominator
replaced by 1 when the total is not positive, then `* 100` and `.round(2)`. -/
def make_msa_row (w b o tot : ℚ) : ℚ × ℚ × ℚ :=
  let t := if 0 < tot then tot else 1
  (round2 (w / t * 100), round2 (b / t * 100), round2 (o / t * 100))

/-- An IEEE-754-like value: pandas float division yields `NaN` for `0/0` and
a signed infinity for `x/0` with `x ≠ 0`. -/
inductive PFloat where
  | val : ℚ → PFloat
  | nan : PFloat
  | inf : PFloat
  | ninf : PFloat
deriving DecidableEq

/-- Pandas float division of finite values. -/
def pdiv (a b : ℚ) : PFloat :=
  if b = 0 then (if a = 0 then .nan else if 0 < a then .inf else .ninf)
  else .val (a / b)

/-- `(x * 100).round(2)` on a pandas float; non-finite values propagate. -/
def pscale100round2 : PFloat → PFloat
  | .val q => .val (round2 (q * 100))
  | x => x

/-- One table entry of the dashboard's `prepare_tables`
(src/gt_utilities/demographics.py:88-104): the race column divided by the raw
sex total — no zero guard — then `* 100` and `.round(2)`. -/
def prepare_tables_entry (w tot : ℚ) : PFloat := pscale100round2 (pdiv w tot)

/-- One table entry of the dashboard's `prepare_1980_tables`
(src/gt_utilities/demographics.py:26-48): same formula over the lowercase
1980 column names — no zero guard. -/
def prepare_1980_tables_entry (w tot : ℚ) : PFloat := pscale100round2 (pdiv w tot)

/-- The 1980 `Total male` indicator built by `transform_pop_1980_to_final`
(src/gt_utilities/clean_census_bea_data.py:186-191): the sum of the three
`... male` race buckets, later renamed `TOT_MALE`; so for the 1980 pipeline
the sex total *is* the sum of the three components by construction. -/
def total_male_1980 (white black other : ℚ) : ℚ := white + black + other

/-- A CBSA polygon feature as read from the converted CBSA GeoJSON; geometry
is modelled as the set (list) of ground cells the polygon covers, a discrete
model adequate for the overlay-difference semantics. -/
structure MsaFeature where
  CBSAFP : String
  geom : List Int
deriving DecidableEq

/-- A state polygon feature as read from the converted state GeoJSON. -/
structure StateFeature where
  STATEFP : String
  geom : List Int
deriving DecidableEq

/-- A feature of the combined collection, keyed by `region_id`. -/
structure Region where
  region_id : String
  geom : List Int
deriving DecidableEq

/-- `str.lstrip("0")` (src/dataprep.py:196). -/
def lstripZeros (s : String) : String := String.mk (s.data.dropWhile (fun c => c == '0'))

/-- `gdf_msas_data` (src/dataprep.py:175-176): metro polygons whose CBSA id
appears in the employment data. -/
def gdf_msas_data (gdf_msas : List MsaFeature) (msa_ids_with_data : List String) :
    List MsaFeature :=
  gdf_msas.filter (fun f => msa_ids_with_data.contains f.CBSAFP)

/-- `gdf_states.overlay(gdf_msas_data, how="difference")` (src/dataprep.py:179):
subtract the metro polygons' ground from each state polygon. -/
def overlay_difference (states : List StateFeature) (msas : List MsaFeature) :
    List StateFeature :=
  states.map (fun s =>
    ⟨s.STATEFP, s.geom.filter (fun p => ¬ msas.any (fun m => m.geom.contains p))⟩)

/-- `combined_geo` (src/dataprep.py:186-201): the script reloads `msa_geo` and
`states_geo` from the *unfiltered, unclipped* GeoJSON files written in the
conversion loop, normalizes `region_id` (CBSA code; state FIPS with leading
zeros stripped), and concatenates — `gdf_msas_data` and the clipped states
never enter this collection. -/
def combined_geo (msa_geo : List MsaFeature) (states_geo : List StateFeature) :
    List Region :=
  msa_geo.map (fun f => ⟨f.CBSAFP, f.geom⟩)
    ++ states_geo.map (fun f => ⟨lstripZeros f.STATEFP, f.geom⟩)

/-- The stage functions `run_full_pipeline` chains
(src/gt_utilities/census_bea_pipeline.py:22-128). Getter stages are the
`Option` results of loading external files; the remaining fields are the
cleaning/merging/building functions of the other modules, taken as parameters
because the claim concerns the orchestration's control flow. `build_merge` is
the merging part of `build_bfi_pop_labor`; its CSV write happens right before
its successful return, so the write occurs exactly when it returns `some`. -/
structure Stages where
  get_bfi : Option DF
  stage_clean_bfi : DF → Option DF
  get_pop_1980 : Option DF
  stage_clean_pop_1980 : DF → Option DF
  get_cbsa_county_crosswalk : Option DF
  stage_clean_crosswalk : DF → Option DF
  stage_merge_pop_1980_with_cbsa : DF → DF → Option DF
  stage_merge_pop_1980_with_bfi : DF → DF → Option DF
  stage_aggregate_pop_1980 : DF → Option DF
  stage_transform_pop_1980_to_final : DF → Option DF
  stage_rename_pop_1980_columns : DF → Option DF
  get_pop_2022 : Option DF
  stage_clean_pop_2022 : DF → Option DF
  stage_merge_pop_2022_with_bfi : DF → DF → Option DF
  stage_organize_pop_2022_minimal : DF → Option DF
  combine_industries : Option DF
  stage_merge_industry_with_msa : DF → DF → DF → Option DF
  build_merge : DF → DF → DF → DF → Option DF
  stage_make_msa_tables : DF → List (String × DF)
  stage_build_msa_industry_tables : DF → List (String × DF)

/-- Step 1 of `run_full_pipeline` (lines 32-38): load and clean BFI. -/
def pipelineBfi (s : Stages) : Option DF :=
  (s.get_bfi).bind fun bfi0 =>
  s.stage_clean_bfi bfi0

/-- Crosswalk stages of `run_full_pipeline` (lines 50-56). -/
def pipelineCrosswalk (s : Stages) : Option DF :=
  (s.get_cbsa_county_crosswalk).bind fun cwr =>
  s.stage_clean_crosswalk cwr

/-- The 1980 section of `run_full_pipeline` (lines 41-76). -/
def pipeline1980 (s : Stages) (bfi cw : DF) : Option DF :=
  (s.get_pop_1980).bind fun p80r =>
  (s.stage_clean_pop_1980 p80r).bind fun p80 =>
  (s.stage_merge_pop_1980_with_cbsa p80 cw).bind fun m1 =>
  (s.stage_merge_pop_1980_with_bfi m1 bfi).bind fun m2 =>
  (s.stage_aggregate_pop_1980 m2).bind fun agg =>
  (s.stage_transform_pop_1980_to_final agg).bind fun fin =>
  s.stage_rename_pop_1980_columns fin

/-- The 2022 section of `run_full_pipeline` (lines 79-94). -/
def pipeline2022 (s : Stages) (bfi : DF) : Option DF :=
  (s.get_pop_2022).bind fun p22r =>
  (s.stage_clean_pop_2022 p22r).bind fun p22 =>
  (s.stage_merge_pop_2022_with_bfi p22 bfi).bind fun m22 =>
  s.stage_organize_pop_2022_minimal m22

/-- The industry section of `run_full_pipeline` (lines 96-104). -/
def pipelineIndustry (s : Stages) (cw bfi : DF) : Option DF :=
  (s.combine_industries).bind fun ind =>
  s.stage_merge_industry_with_msa ind cw bfi

/-- The `None`-short-circuiting stage chain of `run_full_pipeline`; `some`
carries the frames the table builders consume. (Fetching the crosswalk is
independent of the 1980 population stages, so grouping it into its own
sub-chain preserves the source's result.) -/
def pipelineChain (s : Stages) : Option (DF × DF × DF) :=
  (pipelineBfi s).bind fun bfi =>
  (pipelineCrosswalk s).bind fun cw =>
  (pipeline1980 s bfi cw).bind fun finr =>
  (pipeline2022 s bfi).bind fun min22 =>
  (pipelineIndustry s cw bfi).bind fun mInd =>
  (s.build_merge bfi finr min22 mInd).bind fun _out =>
  some (finr, min22, mInd)

/-- `run_full_pipeline` (src/gt_utilities/census_bea_pipeline.py:22-128):
every failed stage returns the `({}, {}, {})` sentinel; the boolean records
whether `merged_bfi.csv` was written (the write happens inside
`build_bfi_pop_labor` immediately before its successful return). -/
def run_full_pipeline (s : Stages) :
    (List (String × DF) × List (String × DF) × List (String × DF)) × Bool :=
  match pipelineChain s with
  | none => (([], [], []), false)
  | some (finr, min22, mInd) =>
    ((s.stage_make_msa_tables finr, s.stage_make_msa_tables min22,
      s.stage_build_msa_industry_tables mInd), true)

/-- The corrected key construction that the sibling module
`src/gt_utilities/get_census_bea_data.py:292-296` uses for the same crosswalk:
2-wide state code concatenated with 3-wide county code. -/
def crosswalk_fips_state_county (st cty : Val) : Val :=
  match cleanKeyCell 2 st, cleanKeyCell 3 cty with
  | .str a, .str b => .str (a ++ b)
  | _, _ => .na

/-- The empty frame (used as a `getD` default in closed statements). -/
def dfEmpty : DF := ⟨[], []⟩

/-- A crosswalk row for Autauga County, AL: state FIPS 01, county FIPS 001,
so the full county FIPS read as a number is 1001. -/
def crosswalkAutauga : DF :=
  ⟨["fipst", "fipscounty", "cbsa", "cbsaname"],
   [[.num 1, .num 1001, .num 33860, .str "Montgomery, AL"]]⟩

/-- A 1980 population row for the same county (FIPS 1001 as a number),
with one age-band column after the first three columns. -/
def popAutauga1980 : DF :=
  ⟨["Year of Estimate", "FIPS State and County Codes", "County Name", "Pop 0-4"],
   [[.num 1980, .num 1001, .str "Autauga", .num 7]]⟩

/-- The 3-metro synthetic base employment frame of the specification's
scenario. -/
def scenarioBfi : List BfiRow :=
  [⟨"10420", "Akron, OH"⟩, ⟨"12060", "Atlanta, GA"⟩, ⟨"99999", "Nowhere"⟩]

/-- Scenario 1980 population rows covering only the first two metros. -/
def scenarioPop1980 : List Pop1980FinalRow :=
  [⟨1980, "10420", 0, 100⟩, ⟨1980, "12060", 0, 200⟩]

/-- Scenario 2022 population rows covering only the first two metros. -/
def scenarioPop2022 : List Pop2022MinRow :=
  [⟨"10420", 300⟩, ⟨"12060", 400⟩]

/-- Sample CBSA features: one with employment data, one without. -/
def msaGeoSample : List MsaFeature := [⟨"10420", [1]⟩, ⟨"99999", [5]⟩]

/-- Sample state feature overlapping the data-backed metro on cell 1. -/
def statesGeoSample : List StateFeature := [⟨"01", [1, 2]⟩]

/-- Sample set of metro ids present in the employment data. -/
def msaIdsWithDataSample : List String := ["10420"]

/-- A BFI frame whose `metro13` does not parse as a number. -/
def bfiUnparseable : DF :=
  ⟨["metro13", "metro_title"], [[.str "abc", .str "Ghost Metro"]]⟩

/-- A crosswalk frame whose `cbsa` does not parse as a number. -/
def crosswalkUnparseable : DF :=
  ⟨["fipst", "fipscounty", "cbsa", "cbsaname"],
   [[.num 1, .num 1001, .str "xx", .str "Ghost"]]⟩

/-- A BFI frame with a numeric `metro13` key. -/
def bfiNumericKeys : DF :=
  ⟨["metro13", "metro_title"], [[.num 10420, .str "Akron, OH"]]⟩

/-- A 2022 population frame with a numeric `CBSA` key. -/
def pop2022NumericKeys : DF :=
  ⟨["CBSA", "NAME"], [[.num 10420, .str "Akron"]]⟩

/-- A crosswalk frame with numeric keys (for the mutation counterexample). -/
def crosswalkNumericKeys : DF :=
  ⟨["fipst", "fipscounty", "cbsa", "cbsaname"],
   [[.num 39, .num 39153, .num 10420, .str "Akron, OH"]]⟩

/-- A stage record whose first getter fails and whose stage functions all
fail: the pipeline must short-circuit on it. -/
def stagesFail : Stages :=
  ⟨none, fun _ => none, none, fun _ => none, none, fun _ => none,
   fun _ _ => none, fun _ _ => none, fun _ => none, fun _ => none, fun _ => none,
   none, fun _ => none, fun _ _ => none, fun _ => none,
   none, fun _ _ _ => none, fun _ _ _ _ => none,
   fun _ => [], fun _ => []⟩

/-! ## Helper lemmas -/

theorem digitChar_isDigit (d : Nat) : (digitChar d).isDigit = true := by
  unfold digitChar
  have h : d % 10 < 10 := Nat.mod_lt _ (by omega)
  set m := d % 10 with hm
  interval_cases m <;> decide

theorem natDigitsAux_isDigit :
    ∀ (fuel n : Nat), ∀ c ∈ natDigitsAux fuel n, c.isDigit = true := by
  intro fuel
  induction fuel with
  | zero => intro n c hc; simp [natDigitsAux] at hc
  | succ f ih =>
    intro n c hc
    unfold natDigitsAux at hc
    split at hc
    · simp only [List.mem_singleton] at hc
      subst hc
      exact digitChar_isDigit n
    · rcases List.mem_append.1 hc with h | h
      · exact ih _ _ h
      · simp only [List.mem_singleton] at h
        subst h
        exact digitChar_isDigit (n % 10)

theorem intStr_no_lt_char (i : Int) : '<' ∉ (intStr i).data := by
  unfold intStr
  split
  · intro hc
    have hd : (String.mk ('-' :: natDigitsAux (i.natAbs + 1) i.natAbs)).data =
        '-' :: natDigitsAux (i.natAbs + 1) i.natAbs := rfl
    rw [hd] at hc
    rcases List.mem_cons.1 hc with h | h
    · exact absurd h (by decide)
    · have := natDigitsAux_isDigit _ _ _ h
      simp at this
  · intro hc
    have hd : (natStr i.natAbs).data = natDigitsAux (i.natAbs + 1) i.natAbs := rfl
    rw [hd] at hc
    have := natDigitsAux_isDigit _ _ _ hc
    simp at this

theorem cleaned_key_ne_sentinel (w : Nat) (i : Int) :
    zfill w (intStr i) ≠ zfill w "<NA>" := by
  intro he
  have hd : zfillChars w (intStr i).data = zfillChars w ("<NA>".data) :=
    congrArg String.data he
  have hmem : '<' ∈ zfillChars w ("<NA>".data) :=
    List.mem_append.2 (Or.inr (by decide))
  rw [← hd] at hmem
  rcases List.mem_append.1 hmem with h | h
  · exact absurd (List.eq_of_mem_replicate h) (by decide)
  · exact intStr_no_lt_char i h

theorem roundHalfEven_sub_le (x : ℚ) : |((roundHalfEven x : ℤ) : ℚ) - x| ≤ 1 / 2 := by
  unfold roundHalfEven
  have h1 : ((⌊x⌋ : ℤ) : ℚ) ≤ x := Int.floor_le x
  have h2 : x < (⌊x⌋ : ℤ) + 1 := Int.lt_floor_add_one x
  split_ifs with ha hb hc <;> rw [abs_le] <;> constructor <;> push_cast at * <;> linarith

theorem round2_sub_le (x : ℚ) : |round2 x - x| ≤ 1 / 200 := by
  have h := roundHalfEven_sub_le (100 * x)
  unfold round2
  rw [abs_le] at h ⊢
  constructor <;> [linarith [h.1]; linarith [h.2]]

theorem roundHalfEven_intCast (n : ℤ) : roundHalfEven (n : ℚ) = n := by
  unfold roundHalfEven
  rw [Int.floor_intCast]
  norm_num

theorem round2_intCast (n : ℤ) : round2 (n : ℚ) = (n : ℚ) := by
  unfold round2
  rw [show (100 : ℚ) * (n : ℚ) = ((100 * n : ℤ) : ℚ) by push_cast; ring,
    roundHalfEven_intCast]
  push_cast
  rw [mul_comm]
  exact mul_div_cancel_right₀ _ (by norm_num)

theorem pct_change_series_example :
    pct_change_series [100, 110, 99] = [10, -10] := by
  have h1 : round1 (((110 : ℚ) - 100) / 100 * 100) = 10 := by
    unfold round1
    rw [show (10 : ℚ) * (((110 : ℚ) - 100) / 100 * 100) = ((100 : ℤ) : ℚ) by norm_num,
      roundHalfEven_intCast]
    norm_num
  have h2 : round1 (((99 : ℚ) - 110) / 110 * 100) = -10 := by
    unfold round1
    rw [show (10 : ℚ) * (((99 : ℚ) - 110) / 110 * 100) = ((-100 : ℤ) : ℚ) by norm_num,
      roundHalfEven_intCast]
    norm_num
  simp only [pct_change_series, h1, h2]

theorem pct_change_series_length (l : List ℚ) :
    (pct_change_series l).length = l.length - 1 := by
  induction l with
  | nil => simp [pct_change_series]
  | cons a t ih =>
    cases t with
    | nil => simp [pct_change_series]
    | cons b t2 =>
      simp only [pct_change_series, List.length_cons, ih]
      omega

theorem pct_change_series_getD (l : List ℚ) (i : Nat) (h : i + 1 < l.length) :
    (pct_change_series l).getD i 0 =
      round1 ((l.getD (i + 1) 0 - l.getD i 0) / l.getD i 0 * 100) := by
  induction l generalizing i with
  | nil => simp at h
  | cons a t ih =>
    cases t with
    | nil => simp at h
    | cons b t2 =>
      cases i with
      | zero => simp [pct_change_series]
      | succ j =>
        have h2 : j + 1 < (b :: t2).length := by
          simp only [List.length_cons] at h ⊢
          omega
        simpa [pct_change_series] using ih j h2

theorem mem_bfi_years_1980 {bfi : List BfiRow} {b : BfiRow} (h : b ∈ bfi) :
    (b, (1980 : Int)) ∈ bfi_years bfi :=
  List.mem_append.2 (Or.inl (List.mem_map.2 ⟨b, h, rfl⟩))

theorem mem_bfi_years_2022 {bfi : List BfiRow} {b : BfiRow} (h : b ∈ bfi) :
    (b, (2022 : Int)) ∈ bfi_years bfi :=
  List.mem_append.2 (Or.inr (List.mem_map.2 ⟨b, h, rfl⟩))

theorem bfi_years_mem {bfi : List BfiRow} {b : BfiRow} {y : Int}
    (h : (b, y) ∈ bfi_years bfi) : b ∈ bfi ∧ (y = 1980 ∨ y = 2022) := by
  unfold bfi_years at h
  rcases List.mem_append.1 h with h1 | h1
  · obtain ⟨b0, hb0, he⟩ := List.mem_map.1 h1
    rw [Prod.mk.injEq] at he
    obtain ⟨rfl, rfl⟩ := he
    exact ⟨hb0, Or.inl rfl⟩
  · obtain ⟨b0, hb0, he⟩ := List.mem_map.1 h1
    rw [Prod.mk.injEq] at he
    obtain ⟨rfl, rfl⟩ := he
    exact ⟨hb0, Or.inr rfl⟩

theorem merge_pop_complete {base : List (BfiRow × Int)} {pop : List PopRow}
    {x : BfiRow × Int} (h : x ∈ base) :
    ∃ tp, (x.1, x.2, tp) ∈ merge_pop base pop := by
  unfold merge_pop
  rcases hm : popMatches pop x.1 x.2 with _ | ⟨p, ps⟩
  · refine ⟨none, List.mem_flatMap.2 ⟨x, h, ?_⟩⟩
    rw [hm]
    exact List.mem_singleton.2 rfl
  · refine ⟨some p.TOT_POP, List.mem_flatMap.2 ⟨x, h, ?_⟩⟩
    rw [hm]
    exact List.mem_map.2 ⟨p, List.mem_cons_self p ps, rfl⟩

theorem merge_pop_shape {base : List (BfiRow × Int)} {pop : List PopRow}
    {t : BfiRow × Int × Option ℚ} (h : t ∈ merge_pop base pop) :
    (t.1, t.2.1) ∈ base := by
  unfold merge_pop at h
  obtain ⟨x, hx, hr⟩ := List.mem_flatMap.1 h
  rcases hm : popMatches pop x.1 x.2 with _ | ⟨p, ps⟩ <;> rw [hm] at hr
  · simp only [List.mem_singleton] at hr
    subst hr
    simpa using hx
  · obtain ⟨p0, _, he⟩ := List.mem_map.1 hr
    subst he
    simpa using hx

theorem merge_ind_complete {l : List (BfiRow × Int × Option ℚ)} {ind : List IndRow}
    {t : BfiRow × Int × Option ℚ} (h : t ∈ l) :
    ∃ r ∈ merge_ind l ind, r.metro13 = t.1.metro13 ∧ r.metro_title = t.1.metro_title
      ∧ r.year = t.2.1 ∧ r.TOT_POP = t.2.2 := by
  unfold merge_ind
  rcases hm : indMatches ind t.1 t.2.1 with _ | ⟨i, it⟩
  · refine ⟨⟨t.1.metro13, t.1.metro_title, t.2.1, t.2.2, none, none, none, none⟩,
      List.mem_flatMap.2 ⟨t, h, ?_⟩, rfl, rfl, rfl, rfl⟩
    rw [hm]
    exact List.mem_singleton.2 rfl
  · refine ⟨⟨t.1.metro13, t.1.metro_title, t.2.1, t.2.2,
      some i.estabs, some i.empl, some i.wages, some i.wkly⟩,
      List.mem_flatMap.2 ⟨t, h, ?_⟩, rfl, rfl, rfl, rfl⟩
    rw [hm]
    exact List.mem_map.2 ⟨i, List.mem_cons_self i it, rfl⟩

theorem merge_ind_shape {l : List (BfiRow × Int × Option ℚ)} {ind : List IndRow}
    {r : MergedRow} (h : r ∈ merge_ind l ind) :
    ∃ t ∈ l, r.metro13 = t.1.metro13 ∧ r.year = t.2.1 := by
  unfold merge_ind at h
  obtain ⟨t, ht, hr⟩ := List.mem_flatMap.1 h
  refine ⟨t, ht, ?_⟩
  rcases hm : indMatches ind t.1 t.2.1 with _ | ⟨i, it⟩ <;> rw [hm] at hr
  · simp only [List.mem_singleton] at hr
    subst hr
    exact ⟨rfl, rfl⟩
  · obtain ⟨i0, _, he⟩ := List.mem_map.1 hr
    subst he
    exact ⟨rfl, rfl⟩

/-! ## Claim theorems -/

/-- Claim C1: the claim states that the `fips` key produced by
`clean_cbsa_county_crosswalk` is a 5-character zero-padded string equal to the
5-character `FIPS State and County Codes` key of `clean_pop_1980`. The code
pads `fipscounty` with `str.zfill(4)`, so for Autauga County, AL (full county
FIPS 01001, numeric 1001) the crosswalk key is the 4-character `"1001"` while
the population key is `"01001"`; the crosswalk join of
`merge_pop_1980_with_cbsa` therefore matches nothing for this county. The
sibling implementation in src/gt_utilities/get_census_bea_data.py:292-296
builds the intended 5-character 2+3 key `"01001"`. -/
theorem C1_crosswalk_fips_key_width_bug :
    ((clean_cbsa_county_crosswalk crosswalkAutauga).getD dfEmpty).rows =
      [[.num 1, .num 1001, .num 33860, .str "Montgomery, AL",
        .str "1001", .str "33860"]]
  ∧ (zfill 4 (intStr 1001)).length = 4
  ∧ ((clean_pop_1980 popAutauga1980).getD dfEmpty).rows =
      [[.num 1980, .str "01001", .str "Autauga", .num 7, .num 7]]
  ∧ (merge_pop_1980_with_cbsa ((clean_pop_1980 popAutauga1980).getD dfEmpty)
      ((clean_cbsa_county_crosswalk crosswalkAutauga).getD dfEmpty)).map
      (fun d => d.rows) = some []
  ∧ crosswalk_fips_state_county (.num 1) (.num 1) = .str "01001" := by
  decide

/-- Claim C2: the master merge is a left join from the year-duplicated base
BFI frame keyed on `(metro13, year)`: every base metro appears in the output
for 1980 and 2022 even without a population match, every output row stems
from a base metro (unmatched population/industry rows are dropped), and the
3-metro scenario with population covering only two metros yields exactly 6
rows with `TOT_POP` null exactly on the `"99999"` rows. -/
theorem C2_master_merge_left_join :
    (∀ (bfi : List BfiRow) (p80 : List Pop1980FinalRow) (p22 : List Pop2022MinRow)
        (ind : List IndRow) (b : BfiRow) (y : Int),
        b ∈ bfi → y = 1980 ∨ y = 2022 →
        ∃ r ∈ build_bfi_pop_labor bfi p80 p22 ind,
          r.metro13 = b.metro13 ∧ r.metro_title = b.metro_title ∧ r.year = y)
  ∧ (∀ (bfi : List BfiRow) (p80 : List Pop1980FinalRow) (p22 : List Pop2022MinRow)
        (ind : List IndRow) (r : MergedRow), r ∈ build_bfi_pop_labor bfi p80 p22 ind →
        ∃ b ∈ bfi, r.metro13 = b.metro13 ∧ (r.year = 1980 ∨ r.year = 2022))
  ∧ (build_bfi_pop_labor scenarioBfi scenarioPop1980 scenarioPop2022 []).length = 6
  ∧ (∀ r ∈ build_bfi_pop_labor scenarioBfi scenarioPop1980 scenarioPop2022 [],
      (r.TOT_POP = none ↔ r.metro13 = "99999")) := by
  refine ⟨?_, ?_, by decide, by decide⟩
  · intro bfi p80 p22 ind b y hb hy
    have hmem : (b, y) ∈ bfi_years bfi := by
      rcases hy with rfl | rfl
      · exact mem_bfi_years_1980 hb
      · exact mem_bfi_years_2022 hb
    obtain ⟨tp, htp⟩ := @merge_pop_complete (bfi_years bfi) (pop_combined p80 p22) (b, y) hmem
    obtain ⟨r, hr, h1, h2, h3, _⟩ := @merge_ind_complete _ ind _ htp
    exact ⟨r, hr, h1, h2, h3⟩
  · intro bfi p80 p22 ind r hr
    obtain ⟨t, ht, h1, h2⟩ := merge_ind_shape hr
    have hbase := merge_pop_shape ht
    obtain ⟨hb, hy⟩ := bfi_years_mem hbase
    refine ⟨t.1, hb, h1, ?_⟩
    rw [h2]
    exact hy

/-- Witness for C2: in the 3-metro scenario, the metro `"99999"` (which has no
population row) still appears in the merged output for year 1980. -/
theorem C2_master_merge_left_join_witness :
    ∃ r ∈ build_bfi_pop_labor scenarioBfi scenarioPop1980 scenarioPop2022 [],
      r.metro13 = "99999" ∧ r.metro_title = "Nowhere" ∧ r.year = 1980 :=
  C2_master_merge_left_join.1 scenarioBfi scenarioPop1980 scenarioPop2022 []
    ⟨"99999", "Nowhere"⟩ 1980 (by decide) (Or.inl rfl)

/-- Claim C3: `download_bea_gdp_percent_change` replaces each year column
except the earliest with the percent change computed from the *original*
levels (the untouched `level_data` copy), rounded to 1 decimal, and drops the
earliest year (the output is one shorter than the input); for levels
`[100, 110, 99]` the series is `[10.0, -10.0]`. -/
theorem C3_gdp_percent_change :
    (∀ l : List ℚ, (pct_change_series l).length = l.length - 1)
  ∧ (∀ (l : List ℚ) (i : Nat), i + 1 < l.length →
      (pct_change_series l).getD i 0 =
        round1 ((l.getD (i + 1) 0 - l.getD i 0) / l.getD i 0 * 100))
  ∧ pct_change_series [100, 110, 99] = [10, -10] :=
  ⟨pct_change_series_length, fun l i h => pct_change_series_getD l i h,
    pct_change_series_example⟩

/-- Witness for C3: the first entry of the series for `[100, 110, 99]` is the
rounded percent change of the original levels 100 and 110. -/
theorem C3_gdp_percent_change_witness :
    (pct_change_series [100, 110, 99]).getD 0 0 =
      round1 ((((100 : ℚ) :: [110, 99]).getD 1 0 - ((100 : ℚ) :: [110, 99]).getD 0 0)
        / ((100 : ℚ) :: [110, 99]).getD 0 0 * 100) :=
  C3_gdp_percent_change.2.1 [100, 110, 99] 0 (by norm_num)

/-- Claim C4: the claim states that every metro feature of the combined
GeoJSON has a `region_id` in the employment data's metro ids and that the
state features are the clipped remainders. The script computes
`gdf_msas_data` (the filter) and the clipped states, but then reloads the
raw, unfiltered `msa_geo` and the raw, unclipped `states_geo` from the
conversion-stage files and concatenates those (src/dataprep.py:186-201),
contradicting its own comment "Load clipped states and filtered MSAs" and
its feature-count print: a metro feature `"99999"` with no employment data
appears in the collection, and the state feature keeps its unclipped
geometry. -/
theorem C4_combined_geojson_unfiltered_bug :
    gdf_msas_data msaGeoSample msaIdsWithDataSample = [⟨"10420", [1]⟩]
  ∧ overlay_difference statesGeoSample (gdf_msas_data msaGeoSample msaIdsWithDataSample)
      = [⟨"01", [2]⟩]
  ∧ (⟨"99999", [5]⟩ : Region) ∈ combined_geo msaGeoSample statesGeoSample
  ∧ "99999" ∉ msaIdsWithDataSample
  ∧ (⟨"1", [1, 2]⟩ : Region) ∈ combined_geo msaGeoSample statesGeoSample
  ∧ combined_geo msaGeoSample statesGeoSample ≠
      (gdf_msas_data msaGeoSample msaIdsWithDataSample).map (fun f => ⟨f.CBSAFP, f.geom⟩)
        ++ (overlay_difference statesGeoSample
            (gdf_msas_data msaGeoSample msaIdsWithDataSample)).map
            (fun f => ⟨lstripZeros f.STATEFP, f.geom⟩) := by
  decide

/-- Counterexample to claim C5: the dashboard's `prepare_tables` and
`prepare_1980_tables` divide by the raw sex total with no zero guard, so a
zero total yields NaN (for a zero numerator) or an infinity — not a 0%
display. -/
theorem C5_dashboard_builders_divide_by_zero :
    prepare_tables_entry 5 0 = PFloat.inf
  ∧ prepare_tables_entry 0 0 = PFloat.nan
  ∧ prepare_1980_tables_entry 0 0 = PFloat.nan
  ∧ prepare_1980_tables_entry 3 0 = PFloat.inf
  ∧ PFloat.nan ≠ PFloat.val 0 := by
  refine ⟨?_, ?_, ?_, ?_, by simp⟩ <;>
    norm_num [prepare_tables_entry, prepare_1980_tables_entry, pdiv, pscale100round2]

/-- Claim C5 as amended: only `make_msa_tables` substitutes 1 for a
non-positive sex total (so a zero-total, zero-numerator row displays 0%);
the dashboard's `prepare_tables` and `prepare_1980_tables` divide by the raw
total and never produce a finite entry when the total is 0. -/
theorem C5_zero_guard_only_in_make_msa_tables (w b o tot q : ℚ) (h : tot = 0) :
    make_msa_row w b o tot = (round2 (w * 100), round2 (b * 100), round2 (o * 100))
  ∧ make_msa_row 0 0 0 tot = (0, 0, 0)
  ∧ prepare_tables_entry w tot ≠ PFloat.val q
  ∧ prepare_1980_tables_entry w tot ≠ PFloat.val q := by
  subst h
  refine ⟨?_, ?_, ?_, ?_⟩
  · norm_num [make_msa_row]
  · norm_num [make_msa_row]
    unfold round2 roundHalfEven
    norm_num
  · unfold prepare_tables_entry pdiv
    rw [if_pos rfl]
    split_ifs <;> simp [pscale100round2]
  · unfold prepare_1980_tables_entry pdiv
    rw [if_pos rfl]
    split_ifs <;> simp [pscale100round2]

/-- Witness for the amended C5 at a concrete zero total. -/
theorem C5_zero_guard_witness :
    make_msa_row 5 1 2 0 = (round2 (5 * 100), round2 (1 * 100), round2 (2 * 100))
  ∧ make_msa_row 0 0 0 0 = (0, 0, 0)
  ∧ prepare_tables_entry 5 0 ≠ PFloat.val 0
  ∧ prepare_1980_tables_entry 5 0 ≠ PFloat.val 0 :=
  C5_zero_guard_only_in_make_msa_tables 5 1 2 0 0 rfl

/-- Counterexample to claim C6 as stated: nothing in the program makes the
three race components of a sex sum to that sex's total — the 2022 path reads
`TOT_MALE` / `TOT_FEMALE` as independent census columns while `OTHER` sums
four overlapping alone-or-in-combination/Hispanic buckets. A proportion row
`make_msa_tables` computes from components 80 + 20 + 19 against a sex total
of 100 has rounded percentages summing to 119, far outside 100 ± 0.02; and a
zero sex total with a nonzero component yields a nonzero row, not the all-
zero row the claim's exception clause promises. -/
theorem C6_closure_fails_without_sum_identity :
    (make_msa_row 80 20 19 100).1 + (make_msa_row 80 20 19 100).2.1
      + (make_msa_row 80 20 19 100).2.2 = 119
  ∧ ¬ |(make_msa_row 80 20 19 100).1 + (make_msa_row 80 20 19 100).2.1
      + (make_msa_row 80 20 19 100).2.2 - 100| ≤ 1 / 50
  ∧ make_msa_row 5 0 0 0 ≠ (0, 0, 0) := by
  have h80 : round2 ((80 : ℚ) / 100 * 100) = 80 := by
    rw [show ((80 : ℚ) / 100 * 100) = ((80 : ℤ) : ℚ) by norm_num, round2_intCast]
    norm_num
  have h20 : round2 ((20 : ℚ) / 100 * 100) = 20 := by
    rw [show ((20 : ℚ) / 100 * 100) = ((20 : ℤ) : ℚ) by norm_num, round2_intCast]
    norm_num
  have h19 : round2 ((19 : ℚ) / 100 * 100) = 19 := by
    rw [show ((19 : ℚ) / 100 * 100) = ((19 : ℤ) : ℚ) by norm_num, round2_intCast]
    norm_num
  have h500 : round2 ((5 : ℚ) / 1 * 100) = 500 := by
    rw [show ((5 : ℚ) / 1 * 100) = ((500 : ℤ) : ℚ) by norm_num, round2_intCast]
    norm_num
  have hpos : (0 : ℚ) < 100 := by norm_num
  have hneg : ¬ (0 : ℚ) < 0 := by norm_num
  refine ⟨?_, ?_, ?_⟩
  · simp only [make_msa_row, if_pos hpos, h80, h20, h19]
    norm_num
  · simp only [make_msa_row, if_pos hpos, h80, h20, h19]
    rw [abs_le]
    norm_num
  · simp only [make_msa_row, if_neg hneg, h500]
    intro h
    have := congrArg Prod.fst h
    norm_num at this

/-- Claim C6 as amended: the closure holds for the rows `make_msa_tables`
builds *when the nonnegative race components of a sex sum to that sex's
total* — a data property the program itself does not enforce (the 2022 sex
totals are independent census columns; the 1980 pipeline builds `Total male`
/ `Total female` as exactly such sums, the `total_male_1980` conjunct, but
its capitalized rename keys never match the lowercased pivot columns, so
`make_msa_tables` never receives the 1980 race columns). Under that
hypothesis the three rounded percentages of a row sum to 100 within ±0.02
(the rounding error is at most 3 × 0.005) when the total is positive, and a
zero total (whose components are then zero) produces the all-zero row. -/
theorem C6_proportion_closure (w b o tot : ℚ) (hw : 0 ≤ w) (hb : 0 ≤ b)
    (ho : 0 ≤ o) (hsum : w + b + o = tot) :
    (0 < tot →
      |(make_msa_row w b o tot).1 + (make_msa_row w b o tot).2.1
        + (make_msa_row w b o tot).2.2 - 100| ≤ 1 / 50)
  ∧ (tot = 0 → make_msa_row w b o tot = (0, 0, 0))
  ∧ total_male_1980 w b o = w + b + o := by
  refine ⟨?_, ?_, rfl⟩
  · intro ht
    have htne : tot ≠ 0 := ne_of_gt ht
    have e1 := round2_sub_le (w / tot * 100)
    have e2 := round2_sub_le (b / tot * 100)
    have e3 := round2_sub_le (o / tot * 100)
    have hx : w / tot * 100 + b / tot * 100 + o / tot * 100 = 100 := by
      field_simp
      linarith
    simp only [make_msa_row, if_pos ht]
    rw [abs_le] at e1 e2 e3 ⊢
    constructor <;> linarith
  · intro h0
    have hw0 : w = 0 := by linarith
    have hb0 : b = 0 := by linarith
    have ho0 : o = 0 := by linarith
    subst h0 hw0 hb0 ho0
    simp only [make_msa_row]
    norm_num
    unfold round2 roundHalfEven
    norm_num

/-- Witness for C6 at concrete totals 30 + 20 + 50 = 100: the rounded row
sums to 100 within ±0.02. -/
theorem C6_proportion_closure_witness :
    |(make_msa_row 30 20 50 100).1 + (make_msa_row 30 20 50 100).2.1
      + (make_msa_row 30 20 50 100).2.2 - 100| ≤ 1 / 50 :=
  (C6_proportion_closure 30 20 50 100 (by norm_num) (by norm_num) (by norm_num)
    (by norm_num)).1 (by norm_num)

/-- Claim C7: each tabular cleaner returns the typed missing sentinel `none`
(not an exception) whenever a required column is absent: `metro13` for
`clean_bfi`; `Year of Estimate` / `FIPS State and County Codes` for
`clean_pop_1980`; `fipst` / `fipscounty` / `cbsa` for
`clean_cbsa_county_crosswalk`; and any of the 18 required columns for
`organize_pop_2022_minimal`. -/
theorem C7_missing_column_sentinel :
    (∀ df : DF, "metro13" ∉ df.cols → clean_bfi df = none)
  ∧ (∀ df : DF, "Year of Estimate" ∉ df.cols ∨ "FIPS State and County Codes" ∉ df.cols →
      clean_pop_1980 df = none)
  ∧ (∀ df : DF, "fipst" ∉ df.cols ∨ "fipscounty" ∉ df.cols ∨ "cbsa" ∉ df.cols →
      clean_cbsa_county_crosswalk df = none)
  ∧ (∀ (df : DF) (c : String),
      c ∈ required2022Base ++ required2022OtherM ++ required2022OtherF →
      c ∉ df.cols → organize_pop_2022_minimal df = none) := by
  refine ⟨?_, ?_, ?_, ?_⟩
  · intro df h
    simp [clean_bfi, clean_bfi_call, h]
  · intro df h
    rcases h with h | h <;> simp [clean_pop_1980, h]
  · intro df h
    rcases h with h | h | h <;>
      simp [clean_cbsa_county_crosswalk, clean_cbsa_county_crosswalk_call, h]
  · intro df c hc hn
    unfold organize_pop_2022_minimal
    exact if_neg (fun hall => hn (hall c hc))

/-- Witness for C7: every cleaner returns `none` on the empty frame. -/
theorem C7_missing_column_sentinel_witness :
    clean_bfi dfEmpty = none
  ∧ clean_pop_1980 dfEmpty = none
  ∧ clean_cbsa_county_crosswalk dfEmpty = none
  ∧ organize_pop_2022_minimal dfEmpty = none :=
  ⟨C7_missing_column_sentinel.1 dfEmpty (by decide),
   C7_missing_column_sentinel.2.1 dfEmpty (Or.inl (by decide)),
   C7_missing_column_sentinel.2.2.1 dfEmpty (Or.inl (by decide)),
   C7_missing_column_sentinel.2.2.2 dfEmpty "AGEGRP" (by decide) (by decide)⟩

/-- Counterexample to claim C8: a BFI row whose `metro13` is the unparseable
string `"abc"` and a crosswalk row whose `cbsa` is the unparseable `"xx"`
both clean to the same sentinel key `"0<NA>"`, and the
`merge_pop_1980_with_bfi` join then *matches* them (one joined row), so a row
with an unparseable key on one side can match a row on the other side. -/
theorem C8_both_sides_unparseable_join_matches :
    (clean_bfi bfiUnparseable).isSome = true
  ∧ (clean_cbsa_county_crosswalk crosswalkUnparseable).isSome = true
  ∧ ((clean_bfi bfiUnparseable).getD dfEmpty).rows
      = [[.str "0<NA>", .str "Ghost Metro"]]
  ∧ ((clean_cbsa_county_crosswalk crosswalkUnparseable).getD dfEmpty).rows
      = [[.num 1, .num 1001, .str "xx", .str "Ghost", .str "1001", .str "0<NA>"]]
  ∧ (merge_pop_1980_with_bfi
      ((clean_cbsa_county_crosswalk crosswalkUnparseable).getD dfEmpty)
      ((clean_bfi bfiUnparseable).getD dfEmpty)).map (fun d => d.rows.length)
      = some 1 := by
  decide

/-- Claim C8 as amended: an unparseable geographic key is coerced, without
raising, to the zero-padded form of the pandas missing marker (`"0<NA>"` at
width 5); that sentinel never equals any successfully parsed key, so an
unparseable row never matches a parseable row — but any two unparseable keys
cleaned at the same width coerce to the *same* sentinel string, so rows that
are unparseable on both sides of a join do match each other. -/
theorem C8_unparseable_key_coercion (s t : String) (i : Int)
    (hs : strToIntQ s = none) (ht : strToIntQ t = none) :
    cleanKeyCell 5 (.str s) = .str (zfill 5 "<NA>")
  ∧ cleanKeyCell 5 (.num i) = .str (zfill 5 (intStr i))
  ∧ zfill 5 (intStr i) ≠ zfill 5 "<NA>"
  ∧ cleanKeyCell 5 (.str s) = cleanKeyCell 5 (.str t) := by
  refine ⟨?_, rfl, cleaned_key_ne_sentinel 5 i, ?_⟩
  · simp [cleanKeyCell, hs]
  · simp [cleanKeyCell, hs, ht]

/-- Witness for the amended C8 at concrete unparseable keys. -/
theorem C8_unparseable_key_coercion_witness :
    cleanKeyCell 5 (.str "abc") = .str (zfill 5 "<NA>")
  ∧ cleanKeyCell 5 (.num 10420) = .str (zfill 5 (intStr 10420))
  ∧ zfill 5 (intStr 10420) ≠ zfill 5 "<NA>"
  ∧ cleanKeyCell 5 (.str "abc") = cleanKeyCell 5 (.str "xx") :=
  C8_unparseable_key_coercion "abc" "xx" 10420 (by decide) (by decide)

/-- Counterexample to claim C9: `clean_bfi`, `clean_pop_2022`, and
`clean_cbsa_county_crosswalk` assign columns on the frame the caller passed
in (pandas in-place column assignment), so after the call the caller's input
frame is changed: `metro13` / `CBSA` are rewritten to strings and `fips` /
`cbsacode` are added. -/
theorem C9_cleaners_mutate_input :
    (clean_bfi_call bfiNumericKeys).1 ≠ bfiNumericKeys
  ∧ (clean_pop_2022_call pop2022NumericKeys).1 ≠ pop2022NumericKeys
  ∧ (clean_cbsa_county_crosswalk_call crosswalkNumericKeys).1 ≠ crosswalkNumericKeys
  ∧ (clean_cbsa_county_crosswalk_call crosswalkNumericKeys).1.cols
      = ["fipst", "fipscounty", "cbsa", "cbsaname", "fips", "cbsacode"] := by
  decide

/-- Claim C9 as amended: the returned frame is the caller's frame — on
success the caller's input frame equals the returned cleaned frame for
`clean_bfi`, `clean_pop_2022`, and `clean_cbsa_county_crosswalk` (they
mutate in place), while `clean_pop_1980` works on a `.copy()` and leaves the
caller's frame unchanged. -/
theorem C9_cleaner_aliasing (df out : DF) :
    ((clean_bfi_call df).2 = some out → (clean_bfi_call df).1 = out)
  ∧ ((clean_pop_2022_call df).2 = some out → (clean_pop_2022_call df).1 = out)
  ∧ ((clean_cbsa_county_crosswalk_call df).2 = some out →
      (clean_cbsa_county_crosswalk_call df).1 = out)
  ∧ (clean_pop_1980_call df).1 = df := by
  refine ⟨?_, ?_, ?_, rfl⟩
  · intro h
    unfold clean_bfi_call at h ⊢
    split_ifs at h ⊢ with hc
    simpa using h
  · intro h
    unfold clean_pop_2022_call at h ⊢
    split_ifs at h ⊢ with hc
    simpa using h
  · intro h
    unfold clean_cbsa_county_crosswalk_call at h ⊢
    split_ifs at h ⊢ with hc
    simpa using h

/-- Witness for the amended C9: applied to the numeric-key BFI frame, the
caller's frame after the call is the cleaned frame. -/
theorem C9_cleaner_aliasing_witness :
    (clean_bfi_call bfiNumericKeys).1 =
      ⟨["metro13", "metro_title"], [[.str "10420", .str "Akron, OH"]]⟩ :=
  (C9_cleaner_aliasing bfiNumericKeys
    ⟨["metro13", "metro_title"], [[.str "10420", .str "Akron, OH"]]⟩).1 (by decide)

/-- Claim C10: `run_full_pipeline` returns the `({}, {}, {})` sentinel (and
no CSV write) whenever its stage chain fails, and `merged_bfi.csv` is written
(the boolean) only when every stage — each getter, cleaner, merge, aggregate,
transform, and the final build — returned a successful value. -/
theorem C10_pipeline_short_circuit (s : Stages) :
    ((run_full_pipeline s).2 = true →
      ∃ bfi0 bfi cwr cw p80r p80 m1 m2 agg fin finr p22r p22 m22 min22 ind mInd out,
        s.get_bfi = some bfi0 ∧ s.stage_clean_bfi bfi0 = some bfi
        ∧ s.get_cbsa_county_crosswalk = some cwr ∧ s.stage_clean_crosswalk cwr = some cw
        ∧ s.get_pop_1980 = some p80r ∧ s.stage_clean_pop_1980 p80r = some p80
        ∧ s.stage_merge_pop_1980_with_cbsa p80 cw = some m1
        ∧ s.stage_merge_pop_1980_with_bfi m1 bfi = some m2
        ∧ s.stage_aggregate_pop_1980 m2 = some agg
        ∧ s.stage_transform_pop_1980_to_final agg = some fin
        ∧ s.stage_rename_pop_1980_columns fin = some finr
        ∧ s.get_pop_2022 = some p22r ∧ s.stage_clean_pop_2022 p22r = some p22
        ∧ s.stage_merge_pop_2022_with_bfi p22 bfi = some m22
        ∧ s.stage_organize_pop_2022_minimal m22 = some min22
        ∧ s.combine_industries = some ind
        ∧ s.stage_merge_industry_with_msa ind cw bfi = some mInd
        ∧ s.build_merge bfi finr min22 mInd = some out)
  ∧ (pipelineChain s = none → run_full_pipeline s = (([], [], []), false)) := by
  constructor
  · intro h
    unfold run_full_pipeline at h
    rcases hch : pipelineChain s with _ | ⟨finr, min22, mInd⟩
    · rw [hch] at h
      simp at h
    · simp only [pipelineChain, Option.bind_eq_some] at hch
      obtain ⟨bfi, hbfi, cw, hcw, finr2, h80, min222, h22, mInd2, hind, out, hbm, _⟩ := hch
      simp only [pipelineBfi, Option.bind_eq_some] at hbfi
      obtain ⟨bfi0, hg1, hc1⟩ := hbfi
      simp only [pipelineCrosswalk, Option.bind_eq_some] at hcw
      obtain ⟨cwr, hg2, hc2⟩ := hcw
      simp only [pipeline1980, Option.bind_eq_some] at h80
      obtain ⟨p80r, hg3, p80, hc3, m1, hm1, m2, hm2, agg, hagg, fin, hfin, hren⟩ := h80
      simp only [pipeline2022, Option.bind_eq_some] at h22
      obtain ⟨p22r, hg4, p22, hc4, m22, hm22, horg⟩ := h22
      simp only [pipelineIndustry, Option.bind_eq_some] at hind
      obtain ⟨ind, hg5, hmi⟩ := hind
      exact ⟨bfi0, bfi, cwr, cw, p80r, p80, m1, m2, agg, fin, finr2, p22r, p22, m22,
        min222, ind, mInd2, out, hg1, hc1, hg2, hc2, hg3, hc3, hm1, hm2, hagg, hfin,
        hren, hg4, hc4, hm22, horg, hg5, hmi, hbm⟩
  · intro h
    simp [run_full_pipeline, h]

/-- Witness for C10: on the all-failing stage record the pipeline returns
the empty-tables sentinel and writes nothing. -/
theorem C10_pipeline_short_circuit_witness :
    run_full_pipeline stagesFail = (([], [], []), false) :=
  (C10_pipeline_short_circuit stagesFail).2 rfl
